import Mathlib

set_option maxRecDepth 100000

/-!
Shallow embedding of `src/arch/src/aarch64/fdt.rs` (flattened device tree
generation for the aarch64 microVM of this repository).

The generator logic (node creators, device dispatch, error checks) is
translated directly from the Rust source.  The libfdt primitives
(`fdt_begin_node`, `fdt_property`, `fdt_end_node`, `fdt_finish`,
`fdt_open_into`, `fdt_pack`) are external C functions declared but not
defined in the repository; they are modelled from the spec as an
append-only token list plus a final byte-level packing step.

Machine integers (`u32`, `u64`) are modelled as `Nat` with explicit
`% 2 ^ w` where wrap-around matters; byte buffers are `List Nat` whose
elements are bytes (each produced `% 256`).
-/

namespace Fdt

/-- Modelled from the spec and the `match` in `create_devices_node`:
the device-kind tag `DeviceType` (declared in the crate root, not under
`src/`), with exactly the three variants the generator dispatches on. -/
inductive DeviceType where
  | RTC : DeviceType
  | Serial : DeviceType
  | Virtio : Nat → DeviceType
deriving DecidableEq, Repr

/-- Modelled from the spec: the device placement capability
(`DeviceInfoForFDT`): placement address (`u64`), interrupt number
(`u32`), reserved address-space length (`u64`). -/
structure DeviceInfo where
  addr : Nat
  irq : Nat
  length : Nat
deriving DecidableEq, Repr

/-- Modelled from the spec: the interrupt-controller capability
(`GICDevice`, declared in `aarch64::gic`, not under `src/`): a
compatibility string, an ordered sequence of 64-bit register-range
cells, and a maintenance interrupt number. -/
structure GICDeviceModel where
  fdt_compatibility : String
  device_properties : List Nat
  fdt_maint_irq : Nat
deriving DecidableEq, Repr

/-- The error enum of `fdt.rs` (payloads such as `io::Error` and
`NulError` carry no information the generator inspects and are dropped). -/
inductive Error where
  | AppendFDTNode : Error
  | AppendFDTProperty : Error
  | CreateFDT : Error
  | CstringFDTTransform : Error
  | FinishFDTReserveMap : Error
  | IncompleteFDTMemoryWrite : Error
  | WriteFDTToMemory : Error
deriving DecidableEq, Repr

/-- Modelled from the spec: the working buffer driven through the libfdt
sequential-write calls, abstracted as the ordered list of structural
tokens written so far (begin-node / property / end-node).  Insertion
order is the structure-block byte order. -/
inductive FdtToken where
  | beginNode : String → FdtToken
  | endNode : FdtToken
  | prop : String → List Nat → FdtToken
deriving DecidableEq, Repr

-- Constants from the top of fdt.rs.

def GIC_PHANDLE : Nat := 1

def CLOCK_PHANDLE : Nat := 2

def ADDRESS_CELLS : Nat := 0x2

def SIZE_CELLS : Nat := 0x2

def GIC_FDT_IRQ_TYPE_SPI : Nat := 0

def GIC_FDT_IRQ_TYPE_PPI : Nat := 1

def IRQ_TYPE_EDGE_RISING : Nat := 1

def IRQ_TYPE_LEVEL_HI : Nat := 4

/-- Modelled from the spec: `FDT_MAX_SIZE`, the fixed working-buffer
size from `arch::aarch64::layout` (not under `src/`): the generous
upper bound both working buffers are allocated with (0x200000 bytes in
the repository's layout constants). -/
def FDT_MAX_SIZE : Nat := 0x200000

/-- Modelled from the spec: `DRAM_MEM_START`, the fixed guest DRAM
region start from `arch::aarch64::layout` (not under `src/`), the
`0x8000_0000` region start of the spec's scenarios. -/
def DRAM_MEM_START : Nat := 0x80000000

/-- The bytes of a Rust `&str`, for the ASCII strings the generator uses
(one byte per character). -/
def strBytes (s : String) : List Nat := s.data.map Char.toNat

/-- The bytes of a `CStr`/`CString`: the string bytes plus the trailing
null terminator (`to_bytes_with_nul`). -/
def strCBytes (s : String) : List Nat := strBytes s ++ [0]

/-- `CString::new` fails with `NulError` exactly when the supplied
bytes contain an interior null byte. -/
def hasInteriorNul (s : String) : Bool := s.data.contains (Char.ofNat 0)

-- Auxiliary functions for writing u32/u64 numbers in big endian order

-- (`to_be32` / `to_be64` in fdt.rs).

def to_be32 (v : Nat) : List Nat :=
  [v / 2 ^ 24 % 256, v / 2 ^ 16 % 256, v / 2 ^ 8 % 256, v % 256]

def to_be64 (v : Nat) : List Nat := to_be32 (v / 2 ^ 32) ++ to_be32 v

-- Helper functions generating a byte vector from 32-bit/64-bit cells

-- (`generate_prop32` / `generate_prop64` in fdt.rs).

def generate_prop32 (cells : List Nat) : List Nat := cells.flatMap to_be32

def generate_prop64 (cells : List Nat) : List Nat := cells.flatMap to_be64

/-- `append_begin_node`: `CString::new(name)` fails on an interior null
(`CstringFDTTransform`); otherwise the begin-node token is written. -/
def append_begin_node (fdt : List FdtToken) (name : String) :
    Except Error (List FdtToken) :=
  if hasInteriorNul name then .error .CstringFDTTransform
  else .ok (fdt ++ [.beginNode name])

/-- `append_end_node`: writes the end-node token. -/
def append_end_node (fdt : List FdtToken) : Except Error (List FdtToken) :=
  .ok (fdt ++ [.endNode])

/-- `append_property`: `CString::new(name)` fails on an interior null
(`CstringFDTTransform`); otherwise the property token is written. -/
def append_property (fdt : List FdtToken) (name : String) (val : List Nat) :
    Except Error (List FdtToken) :=
  if hasInteriorNul name then .error .CstringFDTTransform
  else .ok (fdt ++ [.prop name val])

/-- `append_property_null`: a zero-length property value. -/
def append_property_null (fdt : List FdtToken) (name : String) :
    Except Error (List FdtToken) :=
  if hasInteriorNul name then .error .CstringFDTTransform
  else .ok (fdt ++ [.prop name []])

def append_property_u32 (fdt : List FdtToken) (name : String) (val : Nat) :
    Except Error (List FdtToken) :=
  append_property fdt name (to_be32 val)

def append_property_u64 (fdt : List FdtToken) (name : String) (val : Nat) :
    Except Error (List FdtToken) :=
  append_property fdt name (to_be64 val)

/-- `append_property_cstring`: the value is an already-valid `CStr`,
only the property name is converted (and checked) here. -/
def append_property_cstring (fdt : List FdtToken) (name : String)
    (cstr_value : String) : Except Error (List FdtToken) :=
  append_property fdt name (strCBytes cstr_value)

/-- `append_property_string`: `CString::new(value)` fails on an interior
null in the value, then delegates to `append_property_cstring`. -/
def append_property_string (fdt : List FdtToken) (name : String)
    (value : String) : Except Error (List FdtToken) :=
  if hasInteriorNul value then .error .CstringFDTTransform
  else append_property_cstring fdt name value

/-- Lowercase hexadecimal rendering, as `format!("{:x}", n)` in Rust. -/
def hexStr (n : Nat) : String := String.mk (Nat.toDigits 16 n)

/-- One iteration of the `for cpu_index in 0..num_cpus` loop body of
`create_cpu_nodes`: the `cpu@{:x}` child node.  The `& 0x7FFFFF` mask on
the MPIDR affinity value is `% 0x800000` (`0x7FFFFF = 2 ^ 23 - 1`). -/
def create_single_cpu_node (num_cpus cpu_index mpidr : Nat)
    (fdt : List FdtToken) : Except Error (List FdtToken) := do
  let fdt ← append_begin_node fdt ("cpu@" ++ hexStr cpu_index)
  let fdt ← append_property_string fdt "device_type" "cpu"
  let fdt ← append_property_string fdt "compatible" "arm,arm-v8"
  let fdt ← if num_cpus > 1 then
      append_property_string fdt "enable-method" "psci"
    else pure fdt
  let fdt ← append_property_u64 fdt "reg" (mpidr % 0x800000)
  append_end_node fdt

/-- The `for cpu_index in 0..num_cpus` loop of `create_cpu_nodes`,
threading the running index. -/
def cpu_nodes_go (num_cpus : Nat) :
    Nat → List Nat → List FdtToken → Except Error (List FdtToken)
  | _, [], fdt => .ok fdt
  | i, m :: rest, fdt => do
    let fdt ← create_single_cpu_node num_cpus i m fdt
    cpu_nodes_go num_cpus (i + 1) rest fdt

/-- `create_cpu_nodes` from fdt.rs. -/
def create_cpu_nodes (fdt : List FdtToken) (vcpu_mpidr : List Nat) :
    Except Error (List FdtToken) := do
  let fdt ← append_begin_node fdt "cpus"
  let fdt ← append_property_u32 fdt "#address-cells" 0x02
  let fdt ← append_property_u32 fdt "#size-cells" 0x0
  let fdt ← cpu_nodes_go vcpu_mpidr.length 0 vcpu_mpidr fdt
  append_end_node fdt

/-- `create_memory_node` from fdt.rs; the guest memory collaborator is
abstracted to its `end_addr().offset()` value. -/
def create_memory_node (fdt : List FdtToken) (mem_end_offset : Nat) :
    Except Error (List FdtToken) := do
  let mem_size := mem_end_offset - DRAM_MEM_START
  let mem_reg_prop := generate_prop64 [DRAM_MEM_START, mem_size]
  let fdt ← append_begin_node fdt "memory"
  let fdt ← append_property_string fdt "device_type" "memory"
  let fdt ← append_property fdt "reg" mem_reg_prop
  append_end_node fdt

/-- `create_chosen_node` from fdt.rs; `cmdline` is the `CStr` argument
(its interior bytes, terminator added by `to_bytes_with_nul`). -/
def create_chosen_node (fdt : List FdtToken) (cmdline : String) :
    Except Error (List FdtToken) := do
  let fdt ← append_begin_node fdt "chosen"
  let fdt ← append_property_cstring fdt "bootargs" cmdline
  append_end_node fdt

/-- `create_gic_node` from fdt.rs. -/
def create_gic_node (fdt : List FdtToken) (gic_device : GICDeviceModel) :
    Except Error (List FdtToken) := do
  let gic_reg_prop := generate_prop64 gic_device.device_properties
  let fdt ← append_begin_node fdt "intc"
  let fdt ← append_property_string fdt "compatible" gic_device.fdt_compatibility
  let fdt ← append_property_null fdt "interrupt-controller"
  let fdt ← append_property_u32 fdt "#interrupt-cells" 3
  let fdt ← append_property fdt "reg" gic_reg_prop
  let fdt ← append_property_u32 fdt "phandle" GIC_PHANDLE
  let fdt ← append_property_u32 fdt "#address-cells" 2
  let fdt ← append_property_u32 fdt "#size-cells" 2
  let fdt ← append_property_null fdt "ranges"
  let gic_intr := [GIC_FDT_IRQ_TYPE_PPI, gic_device.fdt_maint_irq,
    IRQ_TYPE_LEVEL_HI]
  let gic_intr_prop := generate_prop32 gic_intr
  let fdt ← append_property fdt "interrupts" gic_intr_prop
  append_end_node fdt

/-- `create_clock_node` from fdt.rs. -/
def create_clock_node (fdt : List FdtToken) : Except Error (List FdtToken) := do
  let fdt ← append_begin_node fdt "apb-pclk"
  let fdt ← append_property_string fdt "compatible" "fixed-clock"
  let fdt ← append_property_u32 fdt "#clock-cells" 0x0
  let fdt ← append_property_u32 fdt "clock-frequency" 24000000
  let fdt ← append_property_string fdt "clock-output-names" "clk24mhz"
  let fdt ← append_property_u32 fdt "phandle" CLOCK_PHANDLE
  append_end_node fdt

/-- `create_timer_node` from fdt.rs: the fixed irqs `[13, 14, 11, 10]`
each encoded as `(PPI, irq, LEVEL_HI)` cells. -/
def create_timer_node (fdt : List FdtToken) : Except Error (List FdtToken) := do
  let irqs := [13, 14, 11, 10]
  let timer_reg_cells := irqs.flatMap
    (fun irq => [GIC_FDT_IRQ_TYPE_PPI, irq, IRQ_TYPE_LEVEL_HI])
  let timer_reg_prop := generate_prop32 timer_reg_cells
  let fdt ← append_begin_node fdt "timer"
  let fdt ← append_property_string fdt "compatible" "arm,armv8-timer"
  let fdt ← append_property_null fdt "always-on"
  let fdt ← append_property fdt "interrupts" timer_reg_prop
  append_end_node fdt

/-- `create_psci_node` from fdt.rs. -/
def create_psci_node (fdt : List FdtToken) : Except Error (List FdtToken) := do
  let fdt ← append_begin_node fdt "psci"
  let fdt ← append_property_string fdt "compatible" "arm,psci-0.2"
  let fdt ← append_property_string fdt "method" "hvc"
  append_end_node fdt

/-- `create_virtio_node` from fdt.rs. -/
def create_virtio_node (fdt : List FdtToken) (dev_info : DeviceInfo) :
    Except Error (List FdtToken) := do
  let device_reg_prop := generate_prop64 [dev_info.addr, dev_info.length]
  let irq := generate_prop32 [GIC_FDT_IRQ_TYPE_SPI, dev_info.irq,
    IRQ_TYPE_EDGE_RISING]
  let fdt ← append_begin_node fdt ("virtio_mmio@" ++ hexStr dev_info.addr)
  let fdt ← append_property_string fdt "compatible" "virtio,mmio"
  let fdt ← append_property fdt "reg" device_reg_prop
  let fdt ← append_property fdt "interrupts" irq
  let fdt ← append_property_u32 fdt "interrupt-parent" GIC_PHANDLE
  append_end_node fdt

/-- `create_serial_node` from fdt.rs. -/
def create_serial_node (fdt : List FdtToken) (dev_info : DeviceInfo) :
    Except Error (List FdtToken) := do
  let serial_reg_prop := generate_prop64 [dev_info.addr, dev_info.length]
  let irq := generate_prop32 [GIC_FDT_IRQ_TYPE_SPI, dev_info.irq,
    IRQ_TYPE_EDGE_RISING]
  let fdt ← append_begin_node fdt ("uart@" ++ hexStr dev_info.addr)
  let fdt ← append_property_string fdt "compatible" "ns16550a"
  let fdt ← append_property fdt "reg" serial_reg_prop
  let fdt ← append_property_u32 fdt "clocks" CLOCK_PHANDLE
  let fdt ← append_property_string fdt "clock-names" "apb_pclk"
  let fdt ← append_property fdt "interrupts" irq
  append_end_node fdt

/-- `create_rtc_node` from fdt.rs; its `compatible` value is the raw
byte literal `b"arm,pl031\0arm,primecell\0"`. -/
def create_rtc_node (fdt : List FdtToken) (dev_info : DeviceInfo) :
    Except Error (List FdtToken) := do
  let compatible := strCBytes "arm,pl031" ++ strCBytes "arm,primecell"
  let rtc_reg_prop := generate_prop64 [dev_info.addr, dev_info.length]
  let irq := generate_prop32 [GIC_FDT_IRQ_TYPE_SPI, dev_info.irq,
    IRQ_TYPE_LEVEL_HI]
  let fdt ← append_begin_node fdt ("rtc@" ++ hexStr dev_info.addr)
  let fdt ← append_property fdt "compatible" compatible
  let fdt ← append_property fdt "reg" rtc_reg_prop
  let fdt ← append_property fdt "interrupts" irq
  let fdt ← append_property_u32 fdt "clocks" CLOCK_PHANDLE
  let fdt ← append_property_string fdt "clock-names" "apb_pclk"
  append_end_node fdt

/-- One entry of the device map: the `(DeviceType, String)` key together
with the device's placement info.  The `HashMap` itself is key-unordered;
its iteration order is modelled as the order of this list. -/
def DeviceEntry : Type := (DeviceType × String) × DeviceInfo

instance : DecidableEq DeviceEntry := by
  unfold DeviceEntry; infer_instance

/-- The first `for` loop of `create_devices_node`: serial and RTC nodes
are emitted directly in iteration order, virtio entries are collected
(in iteration order) into the `ordered_virtio_device` vector. -/
def devices_pass1 (fdt : List FdtToken) :
    List DeviceEntry → Except Error (List FdtToken × List DeviceInfo)
  | [] => .ok (fdt, [])
  | ((dt, _id), info) :: rest =>
    match dt with
    | .RTC => do
      let fdt ← create_rtc_node fdt info
      devices_pass1 fdt rest
    | .Serial => do
      let fdt ← create_serial_node fdt info
      devices_pass1 fdt rest
    | .Virtio _ => do
      let (fdt, vs) ← devices_pass1 fdt rest
      pure (fdt, info :: vs)

/-- The second loop of `create_devices_node`: the sorted virtio entries
are emitted in order. -/
def virtio_emit_loop (fdt : List FdtToken) :
    List DeviceInfo → Except Error (List FdtToken)
  | [] => .ok fdt
  | info :: rest => do
    let fdt ← create_virtio_node fdt info
    virtio_emit_loop fdt rest

/-- The address comparison `a.addr().cmp(&b.addr())` used by the
`sort_by` call, as a relation. -/
def addrLe (a b : DeviceInfo) : Prop := a.addr ≤ b.addr

instance : DecidableRel addrLe := fun a b => Nat.decLe a.addr b.addr

/-- `create_devices_node` from fdt.rs: one pass over the map emitting
non-virtio nodes and collecting virtio devices, then a stable sort of
the virtio devices by ascending address, then their emission. -/
def create_devices_node (fdt : List FdtToken) (dev_info : List DeviceEntry) :
    Except Error (List FdtToken) := do
  let (fdt, ordered_virtio_device) ← devices_pass1 fdt dev_info
  virtio_emit_loop fdt (List.insertionSort addrLe ordered_virtio_device)

/-- The `device_info.map_or(Ok(()), |v| create_devices_node(...))` step
of `create_fdt`: no device map means no device nodes. -/
def devices_stage (fdt : List FdtToken) :
    Option (List DeviceEntry) → Except Error (List FdtToken)
  | none => pure fdt
  | some v => create_devices_node fdt v

/-- The machine-configuration inputs of `create_fdt`.  `device_info`
is the optional device map, given in iteration order. -/
structure MachineConfig where
  mem_end_offset : Nat
  vcpu_mpidr : List Nat
  cmdline : String
  device_info : Option (List DeviceEntry)
  gic : GICDeviceModel

/-- The node/property emission sequence of `create_fdt` (everything
between `allocate_fdt` and `finish_fdt`): root properties, then the
fixed stage order CPUs, Memory, Chosen, GIC, Timer, Clock, PSCI,
Devices, then the root node is closed. -/
def build_fdt_tokens (cfg : MachineConfig) : Except Error (List FdtToken) := do
  let fdt : List FdtToken := []
  let fdt ← append_begin_node fdt ""
  let fdt ← append_property_string fdt "compatible" "linux,dummy-virt"
  let fdt ← append_property_u32 fdt "#address-cells" ADDRESS_CELLS
  let fdt ← append_property_u32 fdt "#size-cells" SIZE_CELLS
  let fdt ← append_property_u32 fdt "interrupt-parent" GIC_PHANDLE
  let fdt ← create_cpu_nodes fdt cfg.vcpu_mpidr
  let fdt ← create_memory_node fdt cfg.mem_end_offset
  let fdt ← create_chosen_node fdt cfg.cmdline
  let fdt ← create_gic_node fdt cfg.gic
  let fdt ← create_timer_node fdt
  let fdt ← create_clock_node fdt
  let fdt ← create_psci_node fdt
  let fdt ← devices_stage fdt cfg.device_info
  append_end_node fdt

/-- Zero padding up to the next 4-byte boundary (every structural token
and property value in the blob is 4-byte aligned, padding bytes zero). -/
def align4pad (l : List Nat) : List Nat :=
  l ++ List.replicate ((4 - l.length % 4) % 4) 0

/-- Modelled from the spec: the strings block collects the property-name
strings, deduplicated, in order of first use. -/
def stringsTable (tokens : List FdtToken) : List String :=
  tokens.foldl
    (fun acc t =>
      match t with
      | .prop n _ => if n ∈ acc then acc else acc ++ [n]
      | _ => acc)
    []

/-- Byte offset of a name inside the strings block. -/
def stringOffset : List String → String → Nat
  | [], _ => 0
  | s :: rest, n =>
    if s = n then 0 else (strCBytes s).length + stringOffset rest n

/-- Modelled from the spec: the structure-block encoding of one token:
`FDT_BEGIN_NODE (1)` with the padded null-terminated name,
`FDT_END_NODE (2)`, or `FDT_PROP (3)` with value length, name offset
into the strings block, and the padded value. -/
def tokenBytes (table : List String) : FdtToken → List Nat
  | .beginNode name => to_be32 1 ++ align4pad (strCBytes name)
  | .endNode => to_be32 2
  | .prop name val =>
    to_be32 3 ++ to_be32 val.length ++ to_be32 (stringOffset table name) ++
      align4pad val

/-- Modelled from the spec: the structure block: the encoded tokens
followed by the `FDT_END (9)` terminator. -/
def structBytes (tokens : List FdtToken) : List Nat :=
  tokens.flatMap (tokenBytes (stringsTable tokens)) ++ to_be32 9

/-- Modelled from the spec: the strings block bytes. -/
def stringsBytes (tokens : List FdtToken) : List Nat :=
  (stringsTable tokens).flatMap strCBytes

/-- Modelled from the spec: the packed blob produced by
`fdt_finish` / `fdt_open_into` / `fdt_pack`: a 40-byte header (magic,
total size, structure-block offset, strings-block offset,
memory-reservation offset, version 17, last compatible version 16,
physical boot CPU id 0, strings-block size, structure-block size), the
empty memory-reservation block (just its 16-byte terminator), the
structure block, the strings block — sized exactly to its content, the
header-declared total size being the byte length of this image. -/

def packedImage (tokens : List FdtToken) : List Nat :=
  let sb := structBytes tokens
  let gb := stringsBytes tokens
  let total := 40 + 16 + sb.length + gb.length
  to_be32 0xd00dfeed ++ to_be32 total ++ to_be32 56 ++
    to_be32 (56 + sb.length) ++ to_be32 40 ++ to_be32 17 ++ to_be32 16 ++
    to_be32 0 ++ to_be32 gb.length ++ to_be32 sb.length ++
    List.replicate 16 0 ++ sb ++ gb

/-- `finish_fdt` from fdt.rs: the packed image is produced inside
`fdt_final`, a buffer allocated with `vec![0; FDT_MAX_SIZE]`; the
buffer is never truncated afterwards, so the bytes past the packed
image keep their zero initialisation. -/
def finish_fdt (tokens : List FdtToken) : List Nat :=
  packedImage tokens ++
    List.replicate (FDT_MAX_SIZE - (packedImage tokens).length) 0

/-- `create_fdt` from fdt.rs.  The external
`guest_mem.write_slice_at_addr` collaborator is abstracted by
`write_res`: the number of bytes the guest-memory write accepted, or a
guest-memory error.  A successful build writes `fdt_final`, fails with
`IncompleteFDTMemoryWrite` when fewer than `FDT_MAX_SIZE` bytes were
accepted, and otherwise returns `fdt_final`. -/
def create_fdt (cfg : MachineConfig) (write_res : Except Unit Nat) :
    Except Error (List Nat) := do
  let tokens ← build_fdt_tokens cfg
  let fdt_final := finish_fdt tokens
  let written ← match write_res with
    | .error _ => Except.error Error.WriteFDTToMemory
    | .ok n => pure n
  if written < FDT_MAX_SIZE then Except.error Error.IncompleteFDTMemoryWrite
  else pure fdt_final

-- Observation helpers used by the theorem statements below.

/-- The begin-node names of a token run, in emission order. -/
def nodeNames (tokens : List FdtToken) : List String :=
  tokens.filterMap
    (fun t =>
      match t with
      | .beginNode n => some n
      | _ => none)

/-- All values carried by properties of a given name in a token run,
in emission order. -/
def propValues (tokens : List FdtToken) (name : String) : List (List Nat) :=
  tokens.filterMap
    (fun t =>
      match t with
      | .prop n v => if n = name then some v else none
      | _ => none)

/-- The token run of one `create_serial_node` call. -/
def serial_node_tokens (d : DeviceInfo) : List FdtToken :=
  [.beginNode ("uart@" ++ hexStr d.addr),
   .prop "compatible" (strCBytes "ns16550a"),
   .prop "reg" (generate_prop64 [d.addr, d.length]),
   .prop "clocks" (to_be32 CLOCK_PHANDLE),
   .prop "clock-names" (strCBytes "apb_pclk"),
   .prop "interrupts"
     (generate_prop32 [GIC_FDT_IRQ_TYPE_SPI, d.irq, IRQ_TYPE_EDGE_RISING]),
   .endNode]

/-- The token run of one `create_rtc_node` call. -/
def rtc_node_tokens (d : DeviceInfo) : List FdtToken :=
  [.beginNode ("rtc@" ++ hexStr d.addr),
   .prop "compatible" (strCBytes "arm,pl031" ++ strCBytes "arm,primecell"),
   .prop "reg" (generate_prop64 [d.addr, d.length]),
   .prop "interrupts"
     (generate_prop32 [GIC_FDT_IRQ_TYPE_SPI, d.irq, IRQ_TYPE_LEVEL_HI]),
   .prop "clocks" (to_be32 CLOCK_PHANDLE),
   .prop "clock-names" (strCBytes "apb_pclk"),
   .endNode]

/-- The token run of one `create_virtio_node` call. -/
def virtio_node_tokens (d : DeviceInfo) : List FdtToken :=
  [.beginNode ("virtio_mmio@" ++ hexStr d.addr),
   .prop "compatible" (strCBytes "virtio,mmio"),
   .prop "reg" (generate_prop64 [d.addr, d.length]),
   .prop "interrupts"
     (generate_prop32 [GIC_FDT_IRQ_TYPE_SPI, d.irq, IRQ_TYPE_EDGE_RISING]),
   .prop "interrupt-parent" (to_be32 GIC_PHANDLE),
   .endNode]

/-- The token run of one iteration of the CPU loop: the `cpu@{:x}` node,
with `enable-method` present exactly when more than one vCPU exists and
`reg` the affinity value masked with `0x7FFFFF` (`% 0x800000`). -/
def cpu_node_block (num_cpus cpu_index mpidr : Nat) : List FdtToken :=
  [.beginNode ("cpu@" ++ hexStr cpu_index),
   .prop "device_type" (strCBytes "cpu"),
   .prop "compatible" (strCBytes "arm,arm-v8")] ++
  (if num_cpus > 1 then [.prop "enable-method" (strCBytes "psci")] else []) ++
  [.prop "reg" (to_be64 (mpidr % 0x800000)),
   .endNode]

/-- The per-CPU token runs of the CPU loop, one entry per vCPU, starting
from index `i`. -/
def cpu_block_list (num_cpus : Nat) : Nat → List Nat → List (List FdtToken)
  | _, [] => []
  | i, m :: rest => cpu_node_block num_cpus i m :: cpu_block_list num_cpus (i + 1) rest

/-- The fixed properties of the `cpus` node emitted before the loop. -/
def cpusPreamble : List FdtToken :=
  [.beginNode "cpus",
   .prop "#address-cells" (to_be32 0x02),
   .prop "#size-cells" (to_be32 0x0)]

/-- The token run of `create_memory_node`. -/
def memory_node_tokens (mem_end_offset : Nat) : List FdtToken :=
  [.beginNode "memory",
   .prop "device_type" (strCBytes "memory"),
   .prop "reg" (generate_prop64 [DRAM_MEM_START, mem_end_offset - DRAM_MEM_START]),
   .endNode]

/-- The token run of `create_chosen_node`. -/
def chosen_node_tokens (cmdline : String) : List FdtToken :=
  [.beginNode "chosen", .prop "bootargs" (strCBytes cmdline), .endNode]

/-- The token run of `create_gic_node`. -/
def gic_node_tokens (g : GICDeviceModel) : List FdtToken :=
  [.beginNode "intc",
   .prop "compatible" (strCBytes g.fdt_compatibility),
   .prop "interrupt-controller" [],
   .prop "#interrupt-cells" (to_be32 3),
   .prop "reg" (generate_prop64 g.device_properties),
   .prop "phandle" (to_be32 GIC_PHANDLE),
   .prop "#address-cells" (to_be32 2),
   .prop "#size-cells" (to_be32 2),
   .prop "ranges" [],
   .prop "interrupts"
     (generate_prop32 [GIC_FDT_IRQ_TYPE_PPI, g.fdt_maint_irq, IRQ_TYPE_LEVEL_HI]),
   .endNode]

/-- The token run of `create_clock_node`. -/
def clock_node_tokens : List FdtToken :=
  [.beginNode "apb-pclk",
   .prop "compatible" (strCBytes "fixed-clock"),
   .prop "#clock-cells" (to_be32 0x0),
   .prop "clock-frequency" (to_be32 24000000),
   .prop "clock-output-names" (strCBytes "clk24mhz"),
   .prop "phandle" (to_be32 CLOCK_PHANDLE),
   .endNode]

/-- The token run of `create_timer_node`. -/
def timer_node_tokens : List FdtToken :=
  [.beginNode "timer",
   .prop "compatible" (strCBytes "arm,armv8-timer"),
   .prop "always-on" [],
   .prop "interrupts"
     (generate_prop32 ([13, 14, 11, 10].flatMap
       (fun irq => [GIC_FDT_IRQ_TYPE_PPI, irq, IRQ_TYPE_LEVEL_HI]))),
   .endNode]

/-- The token run of `create_psci_node`. -/
def psci_node_tokens : List FdtToken :=
  [.beginNode "psci",
   .prop "compatible" (strCBytes "arm,psci-0.2"),
   .prop "method" (strCBytes "hvc"),
   .endNode]

/-- The virtio device infos of a device-map iteration, in iteration
order (the contents of `ordered_virtio_device` before the sort). -/
def virtioEntries : List DeviceEntry → List DeviceInfo
  | [] => []
  | ((dt, _id), info) :: rest =>
    match dt with
    | .Virtio _ => info :: virtioEntries rest
    | _ => virtioEntries rest

/-- The serial and RTC token runs of a device-map iteration, in
iteration order. -/
def nonVirtioTokens : List DeviceEntry → List FdtToken
  | [] => []
  | ((dt, _id), info) :: rest =>
    match dt with
    | .RTC => rtc_node_tokens info ++ nonVirtioTokens rest
    | .Serial => serial_node_tokens info ++ nonVirtioTokens rest
    | .Virtio _ => nonVirtioTokens rest

/-- The fixed root-node preamble of `create_fdt`. -/
def rootPreamble : List FdtToken :=
  [.beginNode "",
   .prop "compatible" (strCBytes "linux,dummy-virt"),
   .prop "#address-cells" (to_be32 ADDRESS_CELLS),
   .prop "#size-cells" (to_be32 SIZE_CELLS),
   .prop "interrupt-parent" (to_be32 GIC_PHANDLE)]

/-- The device-stage token run: nothing when no device map is supplied,
otherwise the `create_devices_node` run. -/
def devicesTokens : Option (List DeviceEntry) → List FdtToken
  | none => []
  | some devs =>
    nonVirtioTokens devs ++
      (List.insertionSort addrLe (virtioEntries devs)).flatMap
        virtio_node_tokens

/-- The whole token sequence of a successful build, stage by stage in
the fixed generation order. -/
def buildTokens (cfg : MachineConfig) : List FdtToken :=
  rootPreamble ++
  (cpusPreamble ++
    (cpu_block_list cfg.vcpu_mpidr.length 0 cfg.vcpu_mpidr).flatten ++
    [.endNode]) ++
  memory_node_tokens cfg.mem_end_offset ++
  chosen_node_tokens cfg.cmdline ++
  gic_node_tokens cfg.gic ++
  timer_node_tokens ++
  clock_node_tokens ++
  psci_node_tokens ++
  devicesTokens cfg.device_info ++
  [.endNode]

/-- The strict address order on device placement infos (ascending
`addr`, the order the virtio nodes are emitted in). -/
def addrLt (a b : DeviceInfo) : Prop := a.addr < b.addr

instance : DecidableRel addrLt := fun a b => Nat.decLt a.addr b.addr

instance : IsTotal DeviceInfo addrLe := ⟨fun a b => Nat.le_total a.addr b.addr⟩

instance : IsTrans DeviceInfo addrLe := ⟨fun _ _ _ => Nat.le_trans⟩

instance : IsTrans DeviceInfo addrLt := ⟨fun _ _ _ => Nat.lt_trans⟩

instance : IsAntisymm DeviceInfo addrLt :=
  ⟨fun _ _ h1 h2 => absurd (Nat.lt_trans h1 h2) (Nat.lt_irrefl _)⟩

/-- Selector form of the virtio collection (used to transport
permutations of the device map to `virtioEntries`). -/
def virtioSel (e : DeviceEntry) : Option DeviceInfo :=
  match e.1.1 with
  | .Virtio _ => some e.2
  | _ => none

-- Concrete inputs used by the witnesses and counterexamples below.

/-- A GIC v3 controller description (scenario controller). -/
def gic0 : GICDeviceModel :=
  ⟨"arm,gic-v3", [0x8000000, 0x10000, 0x8080000, 0x20000], 8⟩

/-- The spec's scenario configuration: one vCPU with affinity 0, memory
`[0x80000000, 0x80000000 + 0x20000000)` (so `end_addr().offset()` is
`0xA0000000`), command line `console=tty0`, no platform devices. -/
def scenarioCfg : MachineConfig :=
  ⟨0xA0000000, [0], "console=tty0", none, gic0⟩

/-- The token sequence of the scenario build. -/
def scenarioTokens : List FdtToken :=
  ((build_fdt_tokens scenarioCfg).toOption).getD []

def dSerial0 : DeviceEntry := ((DeviceType.Serial, "Serial"), ⟨0x1000, 1, 0x1000⟩)

def dRtc0 : DeviceEntry := ((DeviceType.RTC, "rtc"), ⟨0x2000, 2, 0x1000⟩)

def dVirtio1 : DeviceEntry := ((DeviceType.Virtio 1, "v1"), ⟨0x5000, 3, 0x1000⟩)

def dVirtio2 : DeviceEntry := ((DeviceType.Virtio 2, "v2"), ⟨0x4000, 4, 0x1000⟩)

/-- A four-device map iteration interleaving the kinds, virtio
addresses out of order. -/
def devs0 : List DeviceEntry := [dVirtio1, dSerial0, dVirtio2, dRtc0]

def devicesOut0 : List FdtToken :=
  ((create_devices_node [] devs0).toOption).getD []

/-- A permuted iteration order of the same map contents as `devs0`. -/
def devs0perm : List DeviceEntry := [dRtc0, dVirtio2, dSerial0, dVirtio1]

def devicesOut0perm : List FdtToken :=
  ((create_devices_node [] devs0perm).toOption).getD []

/-- Two iteration orders of one two-device map (serial console, RTC). -/
def devsA : List DeviceEntry := [dSerial0, dRtc0]

def devsB : List DeviceEntry := [dRtc0, dSerial0]

def cfgA : MachineConfig := ⟨0xA0000000, [0], "console=tty0", some devsA, gic0⟩

def cfgB : MachineConfig := ⟨0xA0000000, [0], "console=tty0", some devsB, gic0⟩

def tokensA : List FdtToken := ((build_fdt_tokens cfgA).toOption).getD []

def tokensB : List FdtToken := ((build_fdt_tokens cfgB).toOption).getD []

/-- A name with an embedded (interior) null byte. -/
def nulName : String := String.mk [Char.ofNat 97, Char.ofNat 0, Char.ofNat 98]

def dInfo0 : DeviceInfo := ⟨0x4000, 7, 0x1000⟩

def gicOut0 : List FdtToken := ((create_gic_node [] gic0).toOption).getD []

def clockOut0 : List FdtToken := ((create_clock_node []).toOption).getD []

def virtioOut0 : List FdtToken :=
  ((create_virtio_node [] dInfo0).toOption).getD []

def serialOut0 : List FdtToken :=
  ((create_serial_node [] dInfo0).toOption).getD []

def rtcOut0 : List FdtToken := ((create_rtc_node [] dInfo0).toOption).getD []

/-- A two-vCPU affinity list exercising the multi-CPU branch. -/
def mpidrs2 : List Nat := [0x100000001, 5]

def cpuOut2 : List FdtToken :=
  ((create_cpu_nodes [] mpidrs2).toOption).getD []

/-- The CPU nodes for the single affinity value with only bit 23 set. -/
def cpuOutBit23 : List FdtToken :=
  ((create_cpu_nodes [] [0x800000]).toOption).getD []

/-- The CPU nodes for the single all-ones affinity value. -/
def cpuOutAllOnes : List FdtToken :=
  ((create_cpu_nodes [] [0xFFFFFFFFFFFFFFFF]).toOption).getD []

-- Closed-form token runs of the node creators, and inversion lemmas

-- showing each creator, when it succeeds, appends exactly that run.

theorem bind_ok_iff {α β : Type} {e : Except Error α} {f : α → Except Error β}
    {b : β} : (e >>= f) = .ok b ↔ ∃ a, e = .ok a ∧ f a = .ok b := by
  cases e <;> simp [Bind.bind, Except.bind]

theorem pure_ok {α : Type} {a b : α} (h : (pure a : Except Error α) = .ok b) :
    b = a := by
  injection h with h; exact h.symm

theorem append_begin_node_ok {fdt : List FdtToken} {name : String}
    {out : List FdtToken} (h : append_begin_node fdt name = .ok out) :
    out = fdt ++ [.beginNode name] := by
  unfold append_begin_node at h
  split at h
  · simp at h
  · injection h with h; exact h.symm

theorem append_end_node_ok {fdt out : List FdtToken}
    (h : append_end_node fdt = .ok out) : out = fdt ++ [.endNode] := by
  unfold append_end_node at h; injection h with h; exact h.symm

theorem append_property_ok {fdt : List FdtToken} {name : String}
    {val : List Nat} {out : List FdtToken}
    (h : append_property fdt name val = .ok out) :
    out = fdt ++ [.prop name val] := by
  unfold append_property at h
  split at h
  · simp at h
  · injection h with h; exact h.symm

theorem append_property_null_ok {fdt : List FdtToken} {name : String}
    {out : List FdtToken} (h : append_property_null fdt name = .ok out) :
    out = fdt ++ [.prop name []] := by
  unfold append_property_null at h
  split at h
  · simp at h
  · injection h with h; exact h.symm

theorem append_property_u32_ok {fdt : List FdtToken} {name : String} {val : Nat}
    {out : List FdtToken} (h : append_property_u32 fdt name val = .ok out) :
    out = fdt ++ [.prop name (to_be32 val)] :=
  append_property_ok h

theorem append_property_u64_ok {fdt : List FdtToken} {name : String} {val : Nat}
    {out : List FdtToken} (h : append_property_u64 fdt name val = .ok out) :
    out = fdt ++ [.prop name (to_be64 val)] :=
  append_property_ok h

theorem append_property_cstring_ok {fdt : List FdtToken} {name value : String}
    {out : List FdtToken} (h : append_property_cstring fdt name value = .ok out) :
    out = fdt ++ [.prop name (strCBytes value)] :=
  append_property_ok h

theorem append_property_string_ok {fdt : List FdtToken} {name value : String}
    {out : List FdtToken} (h : append_property_string fdt name value = .ok out) :
    out = fdt ++ [.prop name (strCBytes value)] := by
  unfold append_property_string at h
  split at h
  · simp at h
  · exact append_property_cstring_ok h

theorem create_serial_node_ok {fdt : List FdtToken} {d : DeviceInfo}
    {out : List FdtToken} (h : create_serial_node fdt d = .ok out) :
    out = fdt ++ serial_node_tokens d := by
  unfold create_serial_node at h
  rw [bind_ok_iff] at h; obtain ⟨a1, h1, h⟩ := h
  rw [bind_ok_iff] at h; obtain ⟨a2, h2, h⟩ := h
  rw [bind_ok_iff] at h; obtain ⟨a3, h3, h⟩ := h
  rw [bind_ok_iff] at h; obtain ⟨a4, h4, h⟩ := h
  rw [bind_ok_iff] at h; obtain ⟨a5, h5, h⟩ := h
  rw [bind_ok_iff] at h; obtain ⟨a6, h6, h⟩ := h
  obtain rfl := append_begin_node_ok h1
  obtain rfl := append_property_string_ok h2
  obtain rfl := append_property_ok h3
  obtain rfl := append_property_u32_ok h4
  obtain rfl := append_property_string_ok h5
  obtain rfl := append_property_ok h6
  obtain rfl := append_end_node_ok h
  simp [serial_node_tokens]

theorem create_rtc_node_ok {fdt : List FdtToken} {d : DeviceInfo}
    {out : List FdtToken} (h : create_rtc_node fdt d = .ok out) :
    out = fdt ++ rtc_node_tokens d := by
  unfold create_rtc_node at h
  rw [bind_ok_iff] at h; obtain ⟨a1, h1, h⟩ := h
  rw [bind_ok_iff] at h; obtain ⟨a2, h2, h⟩ := h
  rw [bind_ok_iff] at h; obtain ⟨a3, h3, h⟩ := h
  rw [bind_ok_iff] at h; obtain ⟨a4, h4, h⟩ := h
  rw [bind_ok_iff] at h; obtain ⟨a5, h5, h⟩ := h
  rw [bind_ok_iff] at h; obtain ⟨a6, h6, h⟩ := h
  obtain rfl := append_begin_node_ok h1
  obtain rfl := append_property_ok h2
  obtain rfl := append_property_ok h3
  obtain rfl := append_property_ok h4
  obtain rfl := append_property_u32_ok h5
  obtain rfl := append_property_string_ok h6
  obtain rfl := append_end_node_ok h
  simp [rtc_node_tokens]

theorem create_virtio_node_ok {fdt : List FdtToken} {d : DeviceInfo}
    {out : List FdtToken} (h : create_virtio_node fdt d = .ok out) :
    out = fdt ++ virtio_node_tokens d := by
  unfold create_virtio_node at h
  rw [bind_ok_iff] at h; obtain ⟨a1, h1, h⟩ := h
  rw [bind_ok_iff] at h; obtain ⟨a2, h2, h⟩ := h
  rw [bind_ok_iff] at h; obtain ⟨a3, h3, h⟩ := h
  rw [bind_ok_iff] at h; obtain ⟨a4, h4, h⟩ := h
  rw [bind_ok_iff] at h; obtain ⟨a5, h5, h⟩ := h
  obtain rfl := append_begin_node_ok h1
  obtain rfl := append_property_string_ok h2
  obtain rfl := append_property_ok h3
  obtain rfl := append_property_ok h4
  obtain rfl := append_property_u32_ok h5
  obtain rfl := append_end_node_ok h
  simp [virtio_node_tokens]

theorem create_single_cpu_node_ok {num i m : Nat} {fdt out : List FdtToken}
    (h : create_single_cpu_node num i m fdt = .ok out) :
    out = fdt ++ cpu_node_block num i m := by
  unfold create_single_cpu_node at h
  rw [bind_ok_iff] at h; obtain ⟨a1, h1, h⟩ := h
  rw [bind_ok_iff] at h; obtain ⟨a2, h2, h⟩ := h
  rw [bind_ok_iff] at h; obtain ⟨a3, h3, h⟩ := h
  obtain rfl := append_begin_node_ok h1
  obtain rfl := append_property_string_ok h2
  obtain rfl := append_property_string_ok h3
  by_cases hgt : num > 1
  · simp only [if_pos hgt] at h
    rw [bind_ok_iff] at h; obtain ⟨a4, h4, h⟩ := h
    rw [bind_ok_iff] at h; obtain ⟨a5, h5, h⟩ := h
    obtain rfl := append_property_string_ok h4
    obtain rfl := append_property_u64_ok h5
    obtain rfl := append_end_node_ok h
    simp [cpu_node_block, if_pos hgt]
  · simp only [if_neg hgt] at h
    rw [bind_ok_iff] at h; obtain ⟨a4, h4, h⟩ := h
    rw [bind_ok_iff] at h; obtain ⟨a5, h5, h⟩ := h
    obtain rfl := pure_ok h4
    obtain rfl := append_property_u64_ok h5
    obtain rfl := append_end_node_ok h
    simp [cpu_node_block, if_neg hgt]

theorem cpu_nodes_go_ok {num : Nat} : ∀ {ms : List Nat} {i : Nat}
    {fdt out : List FdtToken}, cpu_nodes_go num i ms fdt = .ok out →
    out = fdt ++ (cpu_block_list num i ms).flatten := by
  intro ms
  induction ms with
  | nil =>
    intro i fdt out h
    unfold cpu_nodes_go at h
    injection h with h
    simp [cpu_block_list, h.symm]
  | cons m rest ih =>
    intro i fdt out h
    unfold cpu_nodes_go at h
    rw [bind_ok_iff] at h; obtain ⟨a1, h1, h⟩ := h
    obtain rfl := create_single_cpu_node_ok h1
    have := ih h
    simp [cpu_block_list, this]

theorem create_cpu_nodes_ok {ms : List Nat} {fdt out : List FdtToken}
    (h : create_cpu_nodes fdt ms = .ok out) :
    out = fdt ++ cpusPreamble ++ (cpu_block_list ms.length 0 ms).flatten ++
      [.endNode] := by
  unfold create_cpu_nodes at h
  rw [bind_ok_iff] at h; obtain ⟨a1, h1, h⟩ := h
  rw [bind_ok_iff] at h; obtain ⟨a2, h2, h⟩ := h
  rw [bind_ok_iff] at h; obtain ⟨a3, h3, h⟩ := h
  rw [bind_ok_iff] at h; obtain ⟨a4, h4, h⟩ := h
  obtain rfl := append_begin_node_ok h1
  obtain rfl := append_property_u32_ok h2
  obtain rfl := append_property_u32_ok h3
  obtain rfl := cpu_nodes_go_ok h4
  obtain rfl := append_end_node_ok h
  simp [cpusPreamble]

theorem create_memory_node_ok {fdt out : List FdtToken} {e : Nat}
    (h : create_memory_node fdt e = .ok out) :
    out = fdt ++ memory_node_tokens e := by
  unfold create_memory_node at h
  rw [bind_ok_iff] at h; obtain ⟨a1, h1, h⟩ := h
  rw [bind_ok_iff] at h; obtain ⟨a2, h2, h⟩ := h
  rw [bind_ok_iff] at h; obtain ⟨a3, h3, h⟩ := h
  obtain rfl := append_begin_node_ok h1
  obtain rfl := append_property_string_ok h2
  obtain rfl := append_property_ok h3
  obtain rfl := append_end_node_ok h
  simp [memory_node_tokens]

theorem create_chosen_node_ok {fdt out : List FdtToken} {c : String}
    (h : create_chosen_node fdt c = .ok out) :
    out = fdt ++ chosen_node_tokens c := by
  unfold create_chosen_node at h
  rw [bind_ok_iff] at h; obtain ⟨a1, h1, h⟩ := h
  rw [bind_ok_iff] at h; obtain ⟨a2, h2, h⟩ := h
  obtain rfl := append_begin_node_ok h1
  obtain rfl := append_property_cstring_ok h2
  obtain rfl := append_end_node_ok h
  simp [chosen_node_tokens]

theorem create_gic_node_ok {fdt out : List FdtToken} {g : GICDeviceModel}
    (h : create_gic_node fdt g = .ok out) :
    out = fdt ++ gic_node_tokens g := by
  unfold create_gic_node at h
  rw [bind_ok_iff] at h; obtain ⟨a1, h1, h⟩ := h
  rw [bind_ok_iff] at h; obtain ⟨a2, h2, h⟩ := h
  rw [bind_ok_iff] at h; obtain ⟨a3, h3, h⟩ := h
  rw [bind_ok_iff] at h; obtain ⟨a4, h4, h⟩ := h
  rw [bind_ok_iff] at h; obtain ⟨a5, h5, h⟩ := h
  rw [bind_ok_iff] at h; obtain ⟨a6, h6, h⟩ := h
  rw [bind_ok_iff] at h; obtain ⟨a7, h7, h⟩ := h
  rw [bind_ok_iff] at h; obtain ⟨a8, h8, h⟩ := h
  rw [bind_ok_iff] at h; obtain ⟨a9, h9, h⟩ := h
  rw [bind_ok_iff] at h; obtain ⟨a10, h10, h⟩ := h
  obtain rfl := append_begin_node_ok h1
  obtain rfl := append_property_string_ok h2
  obtain rfl := append_property_null_ok h3
  obtain rfl := append_property_u32_ok h4
  obtain rfl := append_property_ok h5
  obtain rfl := append_property_u32_ok h6
  obtain rfl := append_property_u32_ok h7
  obtain rfl := append_property_u32_ok h8
  obtain rfl := append_property_null_ok h9
  obtain rfl := append_property_ok h10
  obtain rfl := append_end_node_ok h
  simp [gic_node_tokens]

theorem create_clock_node_ok {fdt out : List FdtToken}
    (h : create_clock_node fdt = .ok out) : out = fdt ++ clock_node_tokens := by
  unfold create_clock_node at h
  rw [bind_ok_iff] at h; obtain ⟨a1, h1, h⟩ := h
  rw [bind_ok_iff] at h; obtain ⟨a2, h2, h⟩ := h
  rw [bind_ok_iff] at h; obtain ⟨a3, h3, h⟩ := h
  rw [bind_ok_iff] at h; obtain ⟨a4, h4, h⟩ := h
  rw [bind_ok_iff] at h; obtain ⟨a5, h5, h⟩ := h
  rw [bind_ok_iff] at h; obtain ⟨a6, h6, h⟩ := h
  obtain rfl := append_begin_node_ok h1
  obtain rfl := append_property_string_ok h2
  obtain rfl := append_property_u32_ok h3
  obtain rfl := append_property_u32_ok h4
  obtain rfl := append_property_string_ok h5
  obtain rfl := append_property_u32_ok h6
  obtain rfl := append_end_node_ok h
  simp [clock_node_tokens]

theorem create_timer_node_ok {fdt out : List FdtToken}
    (h : create_timer_node fdt = .ok out) : out = fdt ++ timer_node_tokens := by
  unfold create_timer_node at h
  rw [bind_ok_iff] at h; obtain ⟨a1, h1, h⟩ := h
  rw [bind_ok_iff] at h; obtain ⟨a2, h2, h⟩ := h
  rw [bind_ok_iff] at h; obtain ⟨a3, h3, h⟩ := h
  rw [bind_ok_iff] at h; obtain ⟨a4, h4, h⟩ := h
  obtain rfl := append_begin_node_ok h1
  obtain rfl := append_property_string_ok h2
  obtain rfl := append_property_null_ok h3
  obtain rfl := append_property_ok h4
  obtain rfl := append_end_node_ok h
  simp [timer_node_tokens]

theorem create_psci_node_ok {fdt out : List FdtToken}
    (h : create_psci_node fdt = .ok out) : out = fdt ++ psci_node_tokens := by
  unfold create_psci_node at h
  rw [bind_ok_iff] at h; obtain ⟨a1, h1, h⟩ := h
  rw [bind_ok_iff] at h; obtain ⟨a2, h2, h⟩ := h
  rw [bind_ok_iff] at h; obtain ⟨a3, h3, h⟩ := h
  obtain rfl := append_begin_node_ok h1
  obtain rfl := append_property_string_ok h2
  obtain rfl := append_property_string_ok h3
  obtain rfl := append_end_node_ok h
  simp [psci_node_tokens]

theorem devices_pass1_ok : ∀ {devs : List DeviceEntry}
    {fdt out : List FdtToken} {vs : List DeviceInfo},
    devices_pass1 fdt devs = .ok (out, vs) →
    out = fdt ++ nonVirtioTokens devs ∧ vs = virtioEntries devs := by
  intro devs
  induction devs with
  | nil =>
    intro fdt out vs h
    unfold devices_pass1 at h
    injection h with h
    obtain ⟨rfl, rfl⟩ := Prod.mk.inj h.symm
    simp [nonVirtioTokens, virtioEntries]
  | cons e rest ih =>
    intro fdt out vs h
    obtain ⟨⟨dt, id⟩, info⟩ := e
    cases dt with
    | RTC =>
      unfold devices_pass1 at h
      rw [bind_ok_iff] at h; obtain ⟨a1, h1, h⟩ := h
      obtain rfl := create_rtc_node_ok h1
      obtain ⟨ho, hv⟩ := ih h
      simp [nonVirtioTokens, virtioEntries, ho, hv]
    | Serial =>
      unfold devices_pass1 at h
      rw [bind_ok_iff] at h; obtain ⟨a1, h1, h⟩ := h
      obtain rfl := create_serial_node_ok h1
      obtain ⟨ho, hv⟩ := ih h
      simp [nonVirtioTokens, virtioEntries, ho, hv]
    | Virtio t =>
      unfold devices_pass1 at h
      rw [bind_ok_iff] at h; obtain ⟨⟨a1, vs1⟩, h1, h⟩ := h
      obtain ⟨ho, hv⟩ := ih h1
      have hp := pure_ok h
      obtain ⟨rfl, rfl⟩ := Prod.mk.inj hp
      simp [nonVirtioTokens, virtioEntries, ho, hv]

theorem virtio_emit_loop_ok : ∀ {vs : List DeviceInfo}
    {fdt out : List FdtToken}, virtio_emit_loop fdt vs = .ok out →
    out = fdt ++ vs.flatMap virtio_node_tokens := by
  intro vs
  induction vs with
  | nil =>
    intro fdt out h
    unfold virtio_emit_loop at h
    injection h with h
    simp [h.symm]
  | cons v rest ih =>
    intro fdt out h
    unfold virtio_emit_loop at h
    rw [bind_ok_iff] at h; obtain ⟨a1, h1, h⟩ := h
    obtain rfl := create_virtio_node_ok h1
    have := ih h
    simp [this]

theorem create_devices_node_ok {devs : List DeviceEntry}
    {fdt out : List FdtToken} (h : create_devices_node fdt devs = .ok out) :
    out = fdt ++ nonVirtioTokens devs ++
      (List.insertionSort addrLe (virtioEntries devs)).flatMap
        virtio_node_tokens := by
  unfold create_devices_node at h
  rw [bind_ok_iff] at h; obtain ⟨⟨a1, vs1⟩, h1, h⟩ := h
  obtain ⟨rfl, rfl⟩ := devices_pass1_ok h1
  have := virtio_emit_loop_ok h
  simp [this]

theorem build_fdt_tokens_ok {cfg : MachineConfig} {out : List FdtToken}
    (h : build_fdt_tokens cfg = .ok out) : out = buildTokens cfg := by
  unfold build_fdt_tokens at h
  rw [bind_ok_iff] at h; obtain ⟨a1, h1, h⟩ := h
  rw [bind_ok_iff] at h; obtain ⟨a2, h2, h⟩ := h
  rw [bind_ok_iff] at h; obtain ⟨a3, h3, h⟩ := h
  rw [bind_ok_iff] at h; obtain ⟨a4, h4, h⟩ := h
  rw [bind_ok_iff] at h; obtain ⟨a5, h5, h⟩ := h
  rw [bind_ok_iff] at h; obtain ⟨a6, h6, h⟩ := h
  rw [bind_ok_iff] at h; obtain ⟨a7, h7, h⟩ := h
  rw [bind_ok_iff] at h; obtain ⟨a8, h8, h⟩ := h
  rw [bind_ok_iff] at h; obtain ⟨a9, h9, h⟩ := h
  rw [bind_ok_iff] at h; obtain ⟨a10, h10, h⟩ := h
  rw [bind_ok_iff] at h; obtain ⟨a11, h11, h⟩ := h
  rw [bind_ok_iff] at h; obtain ⟨a12, h12, h⟩ := h
  rw [bind_ok_iff] at h; obtain ⟨a13, h13, h⟩ := h
  obtain rfl := append_begin_node_ok h1
  obtain rfl := append_property_string_ok h2
  obtain rfl := append_property_u32_ok h3
  obtain rfl := append_property_u32_ok h4
  obtain rfl := append_property_u32_ok h5
  obtain rfl := create_cpu_nodes_ok h6
  obtain rfl := create_memory_node_ok h7
  obtain rfl := create_chosen_node_ok h8
  obtain rfl := create_gic_node_ok h9
  obtain rfl := create_timer_node_ok h10
  obtain rfl := create_clock_node_ok h11
  obtain rfl := create_psci_node_ok h12
  obtain rfl := append_end_node_ok h
  cases hdev : cfg.device_info with
  | none =>
    rw [hdev] at h13
    unfold devices_stage at h13
    obtain rfl := pure_ok h13
    simp [buildTokens, rootPreamble, devicesTokens, hdev]
  | some devs =>
    rw [hdev] at h13
    unfold devices_stage at h13
    obtain rfl := create_devices_node_ok h13
    simp [buildTokens, rootPreamble, devicesTokens, hdev]

-- General lemmas about the CPU blocks, the virtio sort, and the packed
-- blob, shared by the claim theorems below.

theorem cpu_block_list_length (num : Nat) : ∀ (ms : List Nat) (i : Nat),
    (cpu_block_list num i ms).length = ms.length := by
  intro ms
  induction ms with
  | nil => intro i; rfl
  | cons m rest ih => intro i; simp [cpu_block_list, ih]

theorem cpu_block_list_zip (num : Nat) : ∀ (ms : List Nat) (i : Nat)
    (p : Nat × List FdtToken), p ∈ ms.zip (cpu_block_list num i ms) →
    ∃ j, p.2 = cpu_node_block num j p.1 := by
  intro ms
  induction ms with
  | nil => intro i p hp; simp [cpu_block_list] at hp
  | cons m rest ih =>
    intro i p hp
    simp only [cpu_block_list, List.zip_cons_cons, List.mem_cons] at hp
    rcases hp with hp | hp
    · refine ⟨i, ?_⟩
      rw [hp]
    · exact ih (i + 1) p hp

theorem cpu_block_list_mem (num : Nat) : ∀ (ms : List Nat) (i : Nat)
    (b : List FdtToken), b ∈ cpu_block_list num i ms →
    ∃ j m, b = cpu_node_block num j m := by
  intro ms
  induction ms with
  | nil => intro i b hb; simp [cpu_block_list] at hb
  | cons m rest ih =>
    intro i b hb
    simp only [cpu_block_list, List.mem_cons] at hb
    rcases hb with hb | hb
    · exact ⟨i, m, hb⟩
    · exact ih (i + 1) b hb

theorem cpu_node_block_reg (num j m : Nat) :
    propValues (cpu_node_block num j m) "reg" = [to_be64 (m % 0x800000)] := by
  by_cases h : num > 1 <;> simp [cpu_node_block, propValues, h]

theorem cpu_node_block_no_enable (j m : Nat) (v : List Nat) :
    FdtToken.prop "enable-method" v ∉ cpu_node_block 1 j m := by
  simp [cpu_node_block]

theorem cpu_node_block_enable (num j m : Nat) (h : 2 ≤ num) :
    FdtToken.prop "enable-method" (strCBytes "psci") ∈ cpu_node_block num j m := by
  have hgt : num > 1 := h
  simp [cpu_node_block, hgt]

theorem insertionSort_addr_strict {l : List DeviceInfo}
    (hdist : l.Pairwise (fun a b => a.addr ≠ b.addr)) :
    (List.insertionSort addrLe l).Pairwise addrLt := by
  have hsorted : List.Sorted addrLe (List.insertionSort addrLe l) :=
    List.sorted_insertionSort addrLe l
  have hperm : (List.insertionSort addrLe l).Perm l :=
    List.perm_insertionSort addrLe l
  have hdist' : (List.insertionSort addrLe l).Pairwise
      (fun a b => a.addr ≠ b.addr) :=
    (hperm.pairwise_iff (fun hab => Ne.symm hab)).mpr hdist
  exact (List.Pairwise.and hsorted hdist').imp
    fun hab => Nat.lt_of_le_of_ne hab.1 hab.2

theorem virtioEntries_eq_filterMap : ∀ devs : List DeviceEntry,
    virtioEntries devs = devs.filterMap virtioSel := by
  intro devs
  induction devs with
  | nil => rfl
  | cons e rest ih =>
    obtain ⟨⟨dt, id⟩, info⟩ := e
    cases dt <;> simp [virtioEntries, virtioSel, ih]

theorem virtioEntries_perm {d₁ d₂ : List DeviceEntry} (hp : d₁.Perm d₂) :
    (virtioEntries d₁).Perm (virtioEntries d₂) := by
  rw [virtioEntries_eq_filterMap, virtioEntries_eq_filterMap]
  exact hp.filterMap virtioSel

theorem finish_fdt_length (tokens : List FdtToken)
    (h : (packedImage tokens).length ≤ FDT_MAX_SIZE) :
    (finish_fdt tokens).length = FDT_MAX_SIZE := by
  simp only [finish_fdt, List.length_append, List.length_replicate]
  omega

theorem finish_fdt_inj_packed {t₁ t₂ : List FdtToken}
    (hlen : (packedImage t₁).length = (packedImage t₂).length)
    (h : finish_fdt t₁ = finish_fdt t₂) : packedImage t₁ = packedImage t₂ := by
  have h1 := congrArg (List.take (packedImage t₁).length) h
  rw [finish_fdt, finish_fdt, List.take_left] at h1
  rw [hlen, List.take_left] at h1
  exact h1

theorem packedImage_length (tokens : List FdtToken) :
    (packedImage tokens).length =
      40 + 16 + (structBytes tokens).length + (stringsBytes tokens).length := by
  simp [packedImage, to_be32]
  omega

-- The claim theorems.

/-- C1: for every device map containing virtio-kind devices with
distinct addresses, and every iteration order `devs` of that map, the
token run emitted by `create_devices_node` places all virtio-mmio nodes
after every non-virtio (serial, RTC) node, and the virtio nodes appear
in strictly increasing order of device address. -/
theorem virtio_nodes_sorted_after_non_virtio
    (devs : List DeviceEntry) (fdt out : List FdtToken)
    (hdist : (virtioEntries devs).Pairwise (fun a b => a.addr ≠ b.addr))
    (h : create_devices_node fdt devs = .ok out) :
    ∃ vs : List DeviceInfo,
      out = fdt ++ nonVirtioTokens devs ++ vs.flatMap virtio_node_tokens ∧
      vs.Perm (virtioEntries devs) ∧
      List.Chain' addrLt vs := by
  refine ⟨List.insertionSort addrLe (virtioEntries devs),
    create_devices_node_ok h, List.perm_insertionSort addrLe _, ?_⟩
  rw [List.chain'_iff_pairwise]
  exact insertionSort_addr_strict hdist

/-- Witness for C1 at a concrete four-device map whose iteration order
interleaves the kinds and lists the virtio addresses out of order. -/
theorem virtio_nodes_sorted_after_non_virtio_witness :
    ∃ vs : List DeviceInfo,
      devicesOut0 = [] ++ nonVirtioTokens devs0 ++
        vs.flatMap virtio_node_tokens ∧
      vs.Perm (virtioEntries devs0) ∧
      List.Chain' addrLt vs :=
  virtio_nodes_sorted_after_non_virtio devs0 [] devicesOut0
    (by decide) (by rfl)

/-- C2 (counterexample): the claim says the CPU `reg` property is the
affinity value masked to its low 24 bits (`a mod 2^24`).  For the
affinity value `0x800000` (only bit 23 set) the code's `& 0x7FFFFF`
mask emits `reg = 0`, while `0x800000 mod 2^24 = 0x800000 ≠ 0`. -/
theorem cpu_reg_mask_counterexample :
    create_cpu_nodes [] [0x800000] = .ok cpuOutBit23 ∧
    propValues cpuOutBit23 "reg" = [to_be64 0] ∧
    FdtToken.prop "reg" (to_be64 (0x800000 % 2 ^ 24)) ∉ cpuOutBit23 ∧
    to_be64 (0x800000 % 2 ^ 24) ≠ to_be64 0 :=
  ⟨rfl, by decide, by decide, by decide⟩

/-- C2 (amended): for every vCPU affinity value `a` in the input list,
the emitted CPU node's `reg` property equals `a & 0x7FFFFF` — that is
`a mod 2^23`, the low 23 bits, not the low 24 bits — encoded as a
64-bit big-endian cell pair. -/
theorem cpu_reg_mask_low23 (mpidrs : List Nat) (fdt out : List FdtToken)
    (h : create_cpu_nodes fdt mpidrs = .ok out) :
    ∃ bs : List (List FdtToken),
      out = fdt ++ cpusPreamble ++ bs.flatten ++ [.endNode] ∧
      bs.length = mpidrs.length ∧
      ∀ p ∈ mpidrs.zip bs,
        propValues p.2 "reg" = [to_be64 (p.1 % 0x800000)] := by
  refine ⟨cpu_block_list mpidrs.length 0 mpidrs, create_cpu_nodes_ok h,
    cpu_block_list_length _ _ _, ?_⟩
  intro p hp
  obtain ⟨j, hj⟩ := cpu_block_list_zip _ _ _ p hp
  rw [hj, cpu_node_block_reg]

/-- Witness for C2's amended theorem at a concrete two-vCPU list. -/
theorem cpu_reg_mask_low23_witness :
    ∃ bs : List (List FdtToken),
      cpuOut2 = [] ++ cpusPreamble ++ bs.flatten ++ [.endNode] ∧
      bs.length = mpidrs2.length ∧
      ∀ p ∈ mpidrs2.zip bs,
        propValues p.2 "reg" = [to_be64 (p.1 % 0x800000)] :=
  cpu_reg_mask_low23 mpidrs2 [] cpuOut2 (by rfl)

/-- C3 (counterexample): for the scenario build the packed image inside
the returned buffer declares total size 1081 in its header (bytes 4..8),
but the buffer handed back to the caller is the whole working buffer of
length `FDT_MAX_SIZE = 0x200000` — the returned blob is not sized to
the header-declared total size. -/
theorem blob_size_counterexample :
    create_fdt scenarioCfg (.ok FDT_MAX_SIZE) = .ok (finish_fdt scenarioTokens) ∧
    ((finish_fdt scenarioTokens).drop 4).take 4 = to_be32 1081 ∧
    (finish_fdt scenarioTokens).length = FDT_MAX_SIZE ∧
    (1081 : Nat) ≠ FDT_MAX_SIZE :=
  ⟨rfl, by decide, finish_fdt_length scenarioTokens (by decide), by decide⟩

/-- C3 (amended): the packed image produced by the finish/pack step is
sized exactly to its content — its byte length equals the
`40 + 16 + structure + strings` total declared in its header total-size
field (bytes 4..8 of the blob) — but the buffer returned to the caller
keeps the fixed working-buffer length `FDT_MAX_SIZE`, the packed image
being its prefix and the rest zero. -/
theorem packed_image_exact_size (cfg : MachineConfig) (tokens : List FdtToken)
    (hb : build_fdt_tokens cfg = .ok tokens)
    (hle : (packedImage tokens).length ≤ FDT_MAX_SIZE) :
    (packedImage tokens).length =
      40 + 16 + (structBytes tokens).length + (stringsBytes tokens).length ∧
    ((finish_fdt tokens).drop 4).take 4 =
      to_be32 ((packedImage tokens).length) ∧
    finish_fdt tokens = packedImage tokens ++
      List.replicate (FDT_MAX_SIZE - (packedImage tokens).length) 0 ∧
    (finish_fdt tokens).length = FDT_MAX_SIZE := by
  refine ⟨packedImage_length tokens, ?_, rfl, finish_fdt_length tokens hle⟩
  rw [packedImage_length tokens]
  rfl

/-- Witness for C3's amended theorem at the scenario build. -/
theorem packed_image_exact_size_witness :
    (packedImage scenarioTokens).length =
      40 + 16 + (structBytes scenarioTokens).length +
        (stringsBytes scenarioTokens).length ∧
    ((finish_fdt scenarioTokens).drop 4).take 4 =
      to_be32 ((packedImage scenarioTokens).length) ∧
    finish_fdt scenarioTokens = packedImage scenarioTokens ++
      List.replicate (FDT_MAX_SIZE - (packedImage scenarioTokens).length) 0 ∧
    (finish_fdt scenarioTokens).length = FDT_MAX_SIZE :=
  packed_image_exact_size scenarioCfg scenarioTokens rfl (by decide)

/-- C4 (counterexample): with the device map compared as a
key-unordered mapping, identical inputs do not force byte-identical
blobs: the same two-device map (serial at 0x1000, RTC at 0x2000)
iterated in its two possible orders yields different blobs, because the
serial/RTC node order follows the map's iteration order. -/
theorem determinism_counterexample :
    devsA.Perm devsB ∧ devsA ≠ devsB ∧
    create_fdt cfgA (.ok FDT_MAX_SIZE) ≠ create_fdt cfgB (.ok FDT_MAX_SIZE) := by
  refine ⟨by decide, by decide, ?_⟩
  intro hcontra
  have hA : create_fdt cfgA (.ok FDT_MAX_SIZE) = .ok (finish_fdt tokensA) := rfl
  have hB : create_fdt cfgB (.ok FDT_MAX_SIZE) = .ok (finish_fdt tokensB) := rfl
  rw [hA, hB] at hcontra
  injection hcontra with hc
  have hp := finish_fdt_inj_packed (by decide) hc
  exact absurd hp (by decide)

/-- C4 (amended): the build is a pure function of its inputs including
the device map's iteration order: two runs on identical inputs with the
same iteration order produce identical output, and for any two
iteration orders of the same map the virtio node run is identical (the
same address-sorted sequence); only the serial/RTC node order follows
the iteration order. -/
theorem determinism_up_to_iteration_order
    (devs₁ devs₂ : List DeviceEntry) (fdt out₁ out₂ : List FdtToken)
    (hperm : devs₁.Perm devs₂)
    (hdist : (virtioEntries devs₁).Pairwise (fun a b => a.addr ≠ b.addr))
    (h₁ : create_devices_node fdt devs₁ = .ok out₁)
    (h₂ : create_devices_node fdt devs₂ = .ok out₂) :
    (devs₁ = devs₂ → out₁ = out₂) ∧
    ∃ vs : List DeviceInfo,
      out₁ = fdt ++ nonVirtioTokens devs₁ ++ vs.flatMap virtio_node_tokens ∧
      out₂ = fdt ++ nonVirtioTokens devs₂ ++ vs.flatMap virtio_node_tokens := by
  constructor
  · intro he
    subst he
    rw [h₁] at h₂
    injection h₂
  · have hpv : (virtioEntries devs₁).Perm (virtioEntries devs₂) :=
      virtioEntries_perm hperm
    have hdist₂ : (virtioEntries devs₂).Pairwise (fun a b => a.addr ≠ b.addr) :=
      (hpv.pairwise_iff (fun hab => Ne.symm hab)).mp hdist
    have hp : (List.insertionSort addrLe (virtioEntries devs₁)).Perm
        (List.insertionSort addrLe (virtioEntries devs₂)) :=
      ((List.perm_insertionSort addrLe _).trans hpv).trans
        (List.perm_insertionSort addrLe _).symm
    have hsorteq : List.insertionSort addrLe (virtioEntries devs₁) =
        List.insertionSort addrLe (virtioEntries devs₂) :=
      List.eq_of_perm_of_sorted hp (insertionSort_addr_strict hdist)
        (insertionSort_addr_strict hdist₂)
    refine ⟨List.insertionSort addrLe (virtioEntries devs₁),
      create_devices_node_ok h₁, ?_⟩
    rw [create_devices_node_ok h₂, hsorteq]

/-- Witness for C4's amended theorem at two concrete iteration orders
of one four-device map. -/
theorem determinism_up_to_iteration_order_witness :
    (devs0 = devs0perm → devicesOut0 = devicesOut0perm) ∧
    ∃ vs : List DeviceInfo,
      devicesOut0 = [] ++ nonVirtioTokens devs0 ++
        vs.flatMap virtio_node_tokens ∧
      devicesOut0perm = [] ++ nonVirtioTokens devs0perm ++
        vs.flatMap virtio_node_tokens :=
  determinism_up_to_iteration_order devs0 devs0perm [] devicesOut0
    devicesOut0perm (by decide) (by decide) (by rfl) (by rfl)

/-- C5: for the scenario — 1 vCPU, memory
`[0x80000000, 0x80000000 + 0x20000000)`, command line `console=tty0`,
no platform devices, a GIC v3 controller — the build succeeds, the
structure block lists exactly the nodes
root/cpus/cpu@0/memory/chosen/intc/timer/apb-pclk/psci in that order,
and the chosen node carries `bootargs` equal to the null-terminated
string `console=tty0`. -/
theorem scenario_structure :
    build_fdt_tokens scenarioCfg = .ok scenarioTokens ∧
    nodeNames scenarioTokens =
      ["", "cpus", "cpu@0", "memory", "chosen", "intc", "timer",
       "apb-pclk", "psci"] ∧
    propValues scenarioTokens "bootargs" = [strCBytes "console=tty0"] ∧
    create_fdt scenarioCfg (.ok FDT_MAX_SIZE) = .ok (finish_fdt scenarioTokens) :=
  ⟨rfl, by decide, by decide, rfl⟩

/-- C6: with exactly one vCPU no emitted CPU node carries an
`enable-method` property; with two or more vCPUs every emitted CPU node
carries `enable-method = "psci"`. -/
theorem enable_method_iff_multi (mpidrs : List Nat) (fdt out : List FdtToken)
    (h : create_cpu_nodes fdt mpidrs = .ok out) :
    ∃ bs : List (List FdtToken),
      out = fdt ++ cpusPreamble ++ bs.flatten ++ [.endNode] ∧
      bs.length = mpidrs.length ∧
      (mpidrs.length = 1 →
        ∀ b ∈ bs, ∀ v, FdtToken.prop "enable-method" v ∉ b) ∧
      (2 ≤ mpidrs.length →
        ∀ b ∈ bs, FdtToken.prop "enable-method" (strCBytes "psci") ∈ b) := by
  refine ⟨cpu_block_list mpidrs.length 0 mpidrs, create_cpu_nodes_ok h,
    cpu_block_list_length _ _ _, ?_, ?_⟩
  · intro h1 b hb v
    obtain ⟨j, m, hbm⟩ := cpu_block_list_mem _ _ _ b hb
    rw [hbm, h1]
    exact cpu_node_block_no_enable j m v
  · intro h2 b hb
    obtain ⟨j, m, hbm⟩ := cpu_block_list_mem _ _ _ b hb
    rw [hbm]
    exact cpu_node_block_enable _ j m h2

/-- Witness for C6 at a concrete two-vCPU list. -/
theorem enable_method_iff_multi_witness :
    ∃ bs : List (List FdtToken),
      cpuOut2 = [] ++ cpusPreamble ++ bs.flatten ++ [.endNode] ∧
      bs.length = mpidrs2.length ∧
      (mpidrs2.length = 1 →
        ∀ b ∈ bs, ∀ v, FdtToken.prop "enable-method" v ∉ b) ∧
      (2 ≤ mpidrs2.length →
        ∀ b ∈ bs, FdtToken.prop "enable-method" (strCBytes "psci") ∈ b) :=
  enable_method_iff_multi mpidrs2 [] cpuOut2 (by rfl)

/-- C7: for the affinity value 0xFFFFFFFFFFFFFFFF, the emitted CPU
node's `reg` property encodes exactly the value 0x7FFFFF. -/
theorem affinity_mask_all_ones :
    create_cpu_nodes [] [0xFFFFFFFFFFFFFFFF] = .ok cpuOutAllOnes ∧
    propValues cpuOutAllOnes "reg" = [to_be64 0x7FFFFF] :=
  ⟨rfl, by decide⟩

/-- C8: for every node or property name containing an embedded null
byte, `append_begin_node` and `append_property` return the
`CstringFDTTransform` name-encoding error; the remainder of the build —
any continuation `k` sequenced after the failing call — aborts with
that same error, and no blob is ever returned. -/
theorem interior_nul_rejected (fdt : List FdtToken) (name : String)
    (val : List Nat) (k : List FdtToken → Except Error (List Nat))
    (h : hasInteriorNul name = true) :
    append_begin_node fdt name = .error .CstringFDTTransform ∧
    append_property fdt name val = .error .CstringFDTTransform ∧
    (append_begin_node fdt name >>= k) = .error .CstringFDTTransform ∧
    ∀ blob, (append_begin_node fdt name >>= k) ≠ .ok blob := by
  have h1 : append_begin_node fdt name = .error .CstringFDTTransform := by
    simp [append_begin_node, h]
  have h2 : append_property fdt name val = .error .CstringFDTTransform := by
    simp [append_property, h]
  have h3 : (append_begin_node fdt name >>= k) = .error .CstringFDTTransform := by
    rw [h1]; rfl
  refine ⟨h1, h2, h3, ?_⟩
  intro blob hc
  rw [h3] at hc
  exact Except.noConfusion hc

/-- Witness for C8 at the concrete name `"a\x00b"`. -/
theorem interior_nul_rejected_witness :
    append_begin_node [] nulName = .error .CstringFDTTransform ∧
    append_property [] nulName [1] = .error .CstringFDTTransform ∧
    (append_begin_node [] nulName >>= fun _ => Except.ok [7]) =
      .error .CstringFDTTransform ∧
    ∀ blob, (append_begin_node [] nulName >>= fun _ => Except.ok [7]) ≠
      .ok blob :=
  interior_nul_rejected [] nulName [1] (fun _ => Except.ok [7]) (by decide)

/-- C9: after a successful build, a guest-memory write accepting fewer
than `FDT_MAX_SIZE` bytes makes `create_fdt` return
`IncompleteFDTMemoryWrite` instead of a blob, and a write accepting at
least `FDT_MAX_SIZE` bytes lets it return the blob. -/
theorem short_write_fatal (cfg : MachineConfig) (tokens : List FdtToken)
    (n : Nat) (hb : build_fdt_tokens cfg = .ok tokens) :
    (n < FDT_MAX_SIZE →
      create_fdt cfg (.ok n) = .error .IncompleteFDTMemoryWrite) ∧
    (FDT_MAX_SIZE ≤ n → create_fdt cfg (.ok n) = .ok (finish_fdt tokens)) := by
  unfold create_fdt
  rw [hb]
  constructor <;> intro hn
  · simp [Bind.bind, Except.bind, hn, pure, Except.pure]
  · simp [Bind.bind, Except.bind, Nat.not_lt.mpr hn, pure, Except.pure]

/-- Witness for C9 at the scenario build, with a zero-byte write and a
full write. -/
theorem short_write_fatal_witness :
    create_fdt scenarioCfg (.ok 0) = .error .IncompleteFDTMemoryWrite ∧
    create_fdt scenarioCfg (.ok FDT_MAX_SIZE) = .ok (finish_fdt scenarioTokens) :=
  ⟨(short_write_fatal scenarioCfg scenarioTokens 0 rfl).1 (by decide),
   (short_write_fatal scenarioCfg scenarioTokens FDT_MAX_SIZE rfl).2
     (Nat.le_refl _)⟩

/-- C10: the two reserved phandles are the distinct constants 1 (the
interrupt controller) and 2 (the clock); the `phandle` property the
`intc` node declares is `GIC_PHANDLE`, and the root node's and every
virtio node's `interrupt-parent` property equals it; the `phandle`
property the `apb-pclk` node declares is `CLOCK_PHANDLE`, and the
`clocks` property of every serial and RTC node equals it. -/
theorem phandle_consistency :
    GIC_PHANDLE = 1 ∧ CLOCK_PHANDLE = 2 ∧ GIC_PHANDLE ≠ CLOCK_PHANDLE ∧
    (∀ (g : GICDeviceModel) (fdt out : List FdtToken),
      create_gic_node fdt g = .ok out →
      out = fdt ++ gic_node_tokens g ∧
      propValues (gic_node_tokens g) "phandle" = [to_be32 GIC_PHANDLE]) ∧
    (∀ fdt out : List FdtToken, create_clock_node fdt = .ok out →
      out = fdt ++ clock_node_tokens ∧
      propValues clock_node_tokens "phandle" = [to_be32 CLOCK_PHANDLE]) ∧
    (∀ (d : DeviceInfo) (fdt out : List FdtToken),
      create_virtio_node fdt d = .ok out →
      out = fdt ++ virtio_node_tokens d ∧
      propValues (virtio_node_tokens d) "interrupt-parent" =
        [to_be32 GIC_PHANDLE]) ∧
    (∀ (d : DeviceInfo) (fdt out : List FdtToken),
      create_serial_node fdt d = .ok out →
      out = fdt ++ serial_node_tokens d ∧
      propValues (serial_node_tokens d) "clocks" = [to_be32 CLOCK_PHANDLE]) ∧
    (∀ (d : DeviceInfo) (fdt out : List FdtToken),
      create_rtc_node fdt d = .ok out →
      out = fdt ++ rtc_node_tokens d ∧
      propValues (rtc_node_tokens d) "clocks" = [to_be32 CLOCK_PHANDLE]) ∧
    (∀ (cfg : MachineConfig) (out : List FdtToken),
      build_fdt_tokens cfg = .ok out →
      FdtToken.prop "interrupt-parent" (to_be32 GIC_PHANDLE) ∈ out) := by
  refine ⟨rfl, rfl, by decide, ?_, ?_, ?_, ?_, ?_, ?_⟩
  · intro g fdt out h
    exact ⟨create_gic_node_ok h, by simp [gic_node_tokens, propValues]⟩
  · intro fdt out h
    exact ⟨create_clock_node_ok h, by simp [clock_node_tokens, propValues]⟩
  · intro d fdt out h
    exact ⟨create_virtio_node_ok h, by simp [virtio_node_tokens, propValues]⟩
  · intro d fdt out h
    exact ⟨create_serial_node_ok h, by simp [serial_node_tokens, propValues]⟩
  · intro d fdt out h
    exact ⟨create_rtc_node_ok h, by simp [rtc_node_tokens, propValues]⟩
  · intro cfg out h
    rw [build_fdt_tokens_ok h]
    simp [buildTokens, rootPreamble]

/-- Witness for C10 at concrete controller, clock, device and build
instances. -/
theorem phandle_consistency_witness :
    (gicOut0 = [] ++ gic_node_tokens gic0 ∧
      propValues (gic_node_tokens gic0) "phandle" = [to_be32 GIC_PHANDLE]) ∧
    (clockOut0 = [] ++ clock_node_tokens ∧
      propValues clock_node_tokens "phandle" = [to_be32 CLOCK_PHANDLE]) ∧
    (virtioOut0 = [] ++ virtio_node_tokens dInfo0 ∧
      propValues (virtio_node_tokens dInfo0) "interrupt-parent" =
        [to_be32 GIC_PHANDLE]) ∧
    (serialOut0 = [] ++ serial_node_tokens dInfo0 ∧
      propValues (serial_node_tokens dInfo0) "clocks" =
        [to_be32 CLOCK_PHANDLE]) ∧
    (rtcOut0 = [] ++ rtc_node_tokens dInfo0 ∧
      propValues (rtc_node_tokens dInfo0) "clocks" =
        [to_be32 CLOCK_PHANDLE]) ∧
    FdtToken.prop "interrupt-parent" (to_be32 GIC_PHANDLE) ∈ scenarioTokens :=
  ⟨phandle_consistency.2.2.2.1 gic0 [] gicOut0 rfl,
   phandle_consistency.2.2.2.2.1 [] clockOut0 rfl,
   phandle_consistency.2.2.2.2.2.1 dInfo0 [] virtioOut0 rfl,
   phandle_consistency.2.2.2.2.2.2.1 dInfo0 [] serialOut0 rfl,
   phandle_consistency.2.2.2.2.2.2.2.1 dInfo0 [] rtcOut0 rfl,
   phandle_consistency.2.2.2.2.2.2.2.2 scenarioCfg scenarioTokens rfl⟩

end Fdt
